import Mathlib

/-!
Verification development for the grid subsampler (`subsample.py`) of the
`testing_tutorial` repository.

The Python source is shallowly embedded below.  Machine floats are modelled
by exact rationals (`ℚ`); numpy dtypes are carried as an explicit tag; a
Python function that can raise is embedded as a function into `Except`.
Distinct `raise` sites (which the source distinguishes by the message it
prints just before raising) are modelled by distinct error constructors.
-/

/-- Numpy element kinds that appear in the program
(`np.int32`, `np.float32`, `np.float64`). -/
inductive DType where
  | int32
  | float32
  | float64
deriving DecidableEq

/-- A numpy `ndarray` of rank 3 as the program uses it: a shape
`(n1, n2, n3)`, an element kind, and the cell contents.  Reads outside the
shape never occur on the paths modelled here; the content function is total
with value `0` outside the shape where the source initialises with
`np.zeros`. -/
structure Grid where
  n1 : ℕ
  n2 : ℕ
  n3 : ℕ
  dtype : DType
  data : ℕ → ℕ → ℕ → ℚ

/-- The distinct raise sites of `subsample_grid` (and of the scipy call it
makes).  `nonCubic` and `ratioError` are the two explicit
`raise RuntimeError` statements (lines 219 and 225); `zeroDiv` is Python's
`ZeroDivisionError` from `M % 0` or `int(N / 0)`; `emptyFootprint` is the
`RuntimeError` scipy's `ndimage.convolve` raises when the weights array
has a zero-sized dimension (reached when `conversion == 0`). -/
inductive SubErr where
  | nonCubic
  | ratioError
  | zeroDiv
  | emptyFootprint
deriving DecidableEq

/-- Periodic index used by `mode='wrap'` boundary handling: reduce an
integer coordinate modulo the grid size `N` to `[0, N)`. -/
def wrapIdx (N : ℕ) (z : ℤ) : ℕ :=
  (z % (N : ℤ)).toNat

/-- The sliding-sum volume `ndimage.convolve(input_grid, footprint,
mode='wrap')` with `footprint = np.ones((k, k, k))`, evaluated at
`(m1, m2, m3)`.  scipy's convolution with an all-ones kernel of size `k`
sums the input over the window `[m - (k-1) + k/2, m + k/2]` along each
axis (the kernel centre sits at index `k/2`), with periodic wraparound. -/
def slidingSum (N k : ℕ) (d : ℕ → ℕ → ℕ → ℚ) (m1 m2 m3 : ℕ) : ℚ :=
  ∑ j1 ∈ Finset.range k, ∑ j2 ∈ Finset.range k, ∑ j3 ∈ Finset.range k,
    d (wrapIdx N ((m1 : ℤ) + (k / 2 : ℕ) - (j1 : ℤ)))
      (wrapIdx N ((m2 : ℤ) + (k / 2 : ℕ) - (j2 : ℤ)))
      (wrapIdx N ((m3 : ℤ) + (k / 2 : ℕ) - (j3 : ℤ)))

/-- Embedding of `subsample_grid(input_grid, output_gridsize)`
(`subsample.py` lines 175-250), statement by statement:

* `input_gridsize = input_grid.shape[0]` and the cubic-shape check
  (lines 211-219);
* the divisibility check as written in the source, line 221:
  `if not output_gridsize % input_gridsize == 0: raise RuntimeError`
  (note the operand order; Python raises `ZeroDivisionError` instead when
  `input_gridsize == 0`);
* `conversion = int(input_gridsize / output_gridsize)` (line 227;
  `ZeroDivisionError` when `output_gridsize == 0`, and for non-negative
  operands `int` truncation agrees with `ℕ` division);
* `ndimage.convolve` with the all-ones `conversion`-cube footprint and
  wrap mode (lines 229-233; scipy rejects a zero-sized footprint);
* `final_new_density = np.zeros(...)` (dtype `float64`) and the sampling
  loop `final_new_density[i,j,k] = new_density[i*conversion, j*conversion,
  k*conversion] / pow(conversion, 3.0)` (lines 239-248). -/
def subsample_grid (g : Grid) (output_gridsize : ℕ) : Except SubErr Grid :=
  let input_gridsize := g.n1
  if ¬ (g.n2 = input_gridsize ∧ g.n3 = input_gridsize) then
    .error .nonCubic
  else if input_gridsize = 0 then
    .error .zeroDiv
  else if ¬ (output_gridsize % input_gridsize = 0) then
    .error .ratioError
  else if output_gridsize = 0 then
    .error .zeroDiv
  else
    let conversion := input_gridsize / output_gridsize
    if conversion = 0 then
      .error .emptyFootprint
    else
      .ok ⟨output_gridsize, output_gridsize, output_gridsize, .float64,
        fun i j l =>
          if i < output_gridsize ∧ j < output_gridsize ∧ l < output_gridsize then
            slidingSum input_gridsize conversion g.data
              (i * conversion) (j * conversion) (l * conversion)
              / ((conversion : ℚ)) ^ 3
          else 0⟩

/-- A cubic grid of size `N` filled uniformly with value `v`. -/
def uniformGrid (N : ℕ) (v : ℚ) : Grid :=
  ⟨N, N, N, .float64, fun _ _ _ => v⟩

/-- A cubic grid of size `N` that is zero everywhere except for the value
`c` at each block-aligned origin `(i*k, j*k, l*k)`. -/
def impulseGrid (N k : ℕ) (c : ℚ) : Grid :=
  ⟨N, N, N, .float64,
    fun i j l => if i % k = 0 ∧ j % k = 0 ∧ l % k = 0 then c else 0⟩

/-- Concrete 2×2×2 input used to exercise `subsample_grid` on a valid
halving request: cell `(i,j,l)` holds `4*i + 2*j + l`. -/
def gHalving : Grid :=
  ⟨2, 2, 2, .float64, fun i j l => ((4 * i + 2 * j + l : ℕ) : ℚ)⟩

/-- The sum of the cells of the axis-aligned `k×k×k` block of `d` whose
minimum corner is `(m1, m2, m3)` (the non-overlapping block that the
documentation of `subsample_grid` says each output cell averages). -/
def blockSum (k : ℕ) (d : ℕ → ℕ → ℕ → ℚ) (m1 m2 m3 : ℕ) : ℚ :=
  ∑ j1 ∈ Finset.range k, ∑ j2 ∈ Finset.range k, ∑ j3 ∈ Finset.range k,
    d (m1 + j1) (m2 + j2) (m3 + j3)

/-- The two raise sites of `read_grid` (`subsample.py` lines 141-163):
`invalidPrecision` is the `ValueError` for an unsupported precision tag,
`sizeMismatch` the `RuntimeError` for a file whose byte length differs
from `gridsize^3 * byte_size`. -/
inductive ReadErr where
  | invalidPrecision
  | sizeMismatch
deriving DecidableEq

/-- The byte width and numpy dtype `read_grid` associates to each
supported precision tag (`subsample.py` lines 141-149): `"int"` and
`"float"` are 4 bytes (`np.int32`, `np.float32`), `"double"` is 8 bytes
(`np.float64`); anything else is unsupported. -/
def elementWidth : String → Option (ℕ × DType)
  | "int" => some (4, .int32)
  | "float" => some (4, .float32)
  | "double" => some (8, .float64)
  | _ => none

/-- Embedding of `read_grid(filepath, gridsize, precision)`
(`subsample.py` lines 106-172).  The file on disk is modelled by its byte
length `filesize` and its decoded element sequence `content` (element `t`
of the flat stream).  The size check at line 158 compares
`pow(gridsize, 3.0) * byte_size` with the file length; it is modelled
with exact arithmetic (the float `pow` is exact whenever
`gridsize^3 * byte_size` is below `2^53`).  On success the flat stream is
reshaped in row-major order: cell `(i, j, l)` is flat element
`i*gridsize^2 + j*gridsize + l`. -/
def read_grid (filesize : ℕ) (content : ℕ → ℚ) (gridsize : ℕ)
    (precision : String) : Except ReadErr Grid :=
  match elementWidth precision with
  | none => .error .invalidPrecision
  | some (byte_size, precision_dtype) =>
    if gridsize ^ 3 * byte_size ≠ filesize then
      .error .sizeMismatch
    else
      .ok ⟨gridsize, gridsize, gridsize, precision_dtype,
        fun i j l => content (i * gridsize * gridsize + j * gridsize + l)⟩

/-- The command-line arguments after `argparse` (`subsample.py` lines
41-58): any of them may be absent, and the gridsizes are Python ints. -/
structure Args where
  fname_in : Option String
  fname_out : Option String
  precision : Option String
  gridsize_in : Option ℤ
  gridsize_out : Option ℤ

/-- The distinct raise sites of `parse_inputs` (`subsample.py` lines
61-90), each a `ValueError` distinguished by the message printed just
before it: a missing file path (line 64), a bad precision tag (line 73),
a missing gridsize (line 79), an output grid no smaller than the input
grid (line 85, "This is a subsampler..."), and a non-integer gridsize
multiple (line 90).  `divByZero` is Python's `ZeroDivisionError` from
`gridsize_in % 0`. -/
inductive ParseErr where
  | missingFile
  | badPrecision
  | missingGridsize
  | shrinkOnly
  | badMultiple
  | divByZero
deriving DecidableEq

/-- Embedding of the validation chain of `parse_inputs` (`subsample.py`
lines 60-103), check by check and in source order.  On success the parsed
arguments are returned unchanged (the source returns `vars(args)`). -/
def parse_inputs (a : Args) : Except ParseErr Args :=
  if a.fname_in = none ∨ a.fname_out = none then
    .error .missingFile
  else if ¬ (a.precision = some "float" ∨ a.precision = some "double") then
    .error .badPrecision
  else
    match a.gridsize_in, a.gridsize_out with
    | some gin, some gout =>
      if gin < gout then
        .error .shrinkOnly
      else if gout = 0 then
        .error .divByZero
      else if ¬ (gin % gout = 0) then
        .error .badMultiple
      else
        .ok a
    | _, _ => .error .missingGridsize

/-- A heap of numpy arrays: references `0, ..., next - 1` are live, and a
fresh array is allocated at `next`.  Used to make the write footprint of
`subsample_grid` explicit. -/
structure Store where
  next : ℕ
  mem : ℕ → Grid

/-- Allocate a fresh array in the store, returning the new store and the
reference to the array. -/
def Store.alloc (s : Store) (g : Grid) : Store × ℕ :=
  (⟨s.next + 1, fun r => if r = s.next then g else s.mem r⟩, s.next)

/-- The single-cell assignment `arr[i, j, l] = v` performed on the array
at reference `r` (the only kind of write `subsample_grid` performs, at
line 245). -/
def Store.writeCell (s : Store) (r i j l : ℕ) (v : ℚ) : Store :=
  ⟨s.next, fun r2 =>
    if r2 = r then
      ⟨(s.mem r).n1, (s.mem r).n2, (s.mem r).n3, (s.mem r).dtype,
        fun a b c => if a = i ∧ b = j ∧ c = l then v else (s.mem r).data a b c⟩
    else s.mem r2⟩

/-- Iteration order of `itertools.product(range(M), range(M),
range(M))`. -/
def triples (M : ℕ) : List (ℕ × ℕ × ℕ) :=
  (List.range M).flatMap fun i =>
    (List.range M).flatMap fun j =>
      (List.range M).map fun l => (i, j, l)

/-- Store-passing embedding of `subsample_grid`: the input grid lives in
the store at `inRef`, and every array the function creates
(`new_density` from `ndimage.convolve`, and `final_new_density` from
`np.zeros`) is allocated fresh; the sampling loop of lines 242-248 is the
fold of single-cell writes to `final_new_density`'s reference.  The
returned store is the heap after the call, whether it raises or
returns. -/
def subsampleS (s : Store) (inRef : ℕ) (output_gridsize : ℕ) :
    Store × Except SubErr ℕ :=
  let g := s.mem inRef
  let input_gridsize := g.n1
  if ¬ (g.n2 = input_gridsize ∧ g.n3 = input_gridsize) then
    (s, .error .nonCubic)
  else if input_gridsize = 0 then
    (s, .error .zeroDiv)
  else if ¬ (output_gridsize % input_gridsize = 0) then
    (s, .error .ratioError)
  else if output_gridsize = 0 then
    (s, .error .zeroDiv)
  else
    let conversion := input_gridsize / output_gridsize
    if conversion = 0 then
      (s, .error .emptyFootprint)
    else
      let nd : Grid := ⟨input_gridsize, input_gridsize, input_gridsize, g.dtype,
        fun a b c => slidingSum input_gridsize conversion g.data a b c⟩
      let p1 := s.alloc nd
      let zg : Grid := ⟨output_gridsize, output_gridsize, output_gridsize,
        .float64, fun _ _ _ => 0⟩
      let p2 := p1.1.alloc zg
      let s3 := (triples output_gridsize).foldl
        (fun st t =>
          st.writeCell p2.2 t.1 t.2.1 t.2.2
            ((st.mem p1.2).data (t.1 * conversion) (t.2.1 * conversion)
                (t.2.2 * conversion)
              / ((conversion : ℚ)) ^ 3))
        p2.1
      (s3, .ok p2.2)

/-- Claim C1: the claim asserts that for every cubic input of size `N` and
every `M` dividing `N` with `M ≤ N`, `subsample_grid` returns the `M×M×M`
grid of non-overlapping block means.  The code violates this: for the
valid halving request `N = 2`, `M = 1` (where the unique output cell
should be the mean of all eight input cells), the reversed divisibility
test at line 221 (`output_gridsize % input_gridsize`) makes the call
raise `RuntimeError` instead of returning. -/
theorem subsample_grid_blockmean_fails_on_valid_halving :
    subsample_grid gHalving 1 = .error .ratioError ∧ (1 ∣ 2) ∧ 1 ≤ 2 :=
  ⟨rfl, by decide, by decide⟩

/-- Claim C2: the claim asserts the divisibility error is raised iff the
output gridsize does not divide the input gridsize.  The code violates
the "only if" direction: with input gridsize 4 and output gridsize 2
(which divides 4), line 221 tests `2 % 4 == 0`, which is false, so the
call raises the divisibility `RuntimeError` anyway. -/
theorem subsample_grid_divisibility_check_reversed :
    subsample_grid (uniformGrid 4 3) 2 = .error .ratioError ∧ (2 ∣ 4) :=
  ⟨rfl, by decide⟩

/-- Claim C3: the claim asserts homogeneity preservation for every valid
pair with `M < N` and `M ∣ N`.  The code never reaches the averaging for
such pairs: on the uniform 2×2×2 grid of value 5 with `M = 1`, the
reversed divisibility test at line 221 raises `RuntimeError` instead of
returning the uniform grid of value 5. -/
theorem subsample_grid_homogeneous_input_raises :
    subsample_grid (uniformGrid 2 5) 1 = .error .ratioError ∧ (1 ∣ 2) ∧ 1 < 2 :=
  ⟨rfl, by decide, by decide⟩

/-- Claim C6: the claim asserts the impulse-scaling property for every
valid `(N, M)` with `M ∣ N`.  For `N = 4`, `M = 2`, `k = 2` and the
impulse grid with value 8 at each block-aligned origin (expected output:
uniformly `8 / 2^3 = 1`), the reversed divisibility test at line 221
raises `RuntimeError` instead. -/
theorem subsample_grid_impulse_input_raises :
    subsample_grid (impulseGrid 4 2 8) 2 = .error .ratioError ∧ (2 ∣ 4) :=
  ⟨rfl, by decide⟩

/-- Claim C7: `read_grid` fails with the size-mismatch error
(`RuntimeError`, spec name `SizeMismatch`) if and only if the file's byte
length differs from `gridsize^3` times the element width of the supported
precision tag (4 bytes for `"int"`/`"float"`, 8 bytes for `"double"`, as
recorded by `elementWidth`). -/
theorem read_grid_sizeMismatch_iff (filesize : ℕ) (content : ℕ → ℚ)
    (gridsize : ℕ) (precision : String) (w : ℕ) (dt : DType)
    (hp : elementWidth precision = some (w, dt)) :
    read_grid filesize content gridsize precision = .error .sizeMismatch ↔
      filesize ≠ gridsize ^ 3 * w := by
  unfold read_grid
  rw [hp]
  dsimp only
  split_ifs with hsz
  · simpa using hsz.symm
  · push_neg at hsz
    simp [hsz]

/-- Witness for C7: the spec's own rejection example, a file of 4000
bytes declared as a `10^3` grid of doubles (expected 8000 bytes). -/
theorem read_grid_sizeMismatch_iff_witness :
    read_grid 4000 (fun _ => 0) 10 "double" = .error .sizeMismatch ↔
      4000 ≠ 10 ^ 3 * 8 :=
  read_grid_sizeMismatch_iff 4000 (fun _ => 0) 10 "double" 8 .float64 rfl

/-- Claim C5: a request whose output gridsize exceeds the input gridsize
is rejected by the validation layer (`parse_inputs`, line 82: "This is a
subsampler...", the spec's `InvalidRatio`) before the reader and the
reduction engine ever run: whenever the file paths are present and the
precision tag is valid, `gridsize_in < gridsize_out` makes `parse_inputs`
return the shrink-only error, and in the `__main__` pipeline
`parse_inputs` runs before `read_grid` and `subsample_grid`. -/
theorem parse_inputs_rejects_upsampling (a : Args) (gin gout : ℤ)
    (h1 : a.fname_in ≠ none) (h2 : a.fname_out ≠ none)
    (h3 : a.precision = some "float" ∨ a.precision = some "double")
    (h4 : a.gridsize_in = some gin) (h5 : a.gridsize_out = some gout)
    (h6 : gin < gout) :
    parse_inputs a = .error .shrinkOnly := by
  rcases h3 with h3 | h3 <;>
    simp [parse_inputs, h1, h2, h3, h4, h5, h6]

/-- Witness for C5: a fully specified command line requesting to grow a
`2^3` grid to `4^3` is rejected with the shrink-only error. -/
theorem parse_inputs_rejects_upsampling_witness :
    parse_inputs ⟨some "in.dat", some "out.dat", some "float",
      some 2, some 4⟩ = .error .shrinkOnly :=
  parse_inputs_rejects_upsampling
    ⟨some "in.dat", some "out.dat", some "float", some 2, some 4⟩ 2 4
    (by simp) (by simp) (Or.inl rfl) rfl rfl (by decide)

/-- Claim C8: on every call that returns, the returned grid's element
kind is double precision, whatever the input element kind —
`final_new_density` is created by `np.zeros` (dtype `float64`) and filled
with float divisions. -/
theorem subsample_grid_output_dtype (g : Grid) (M : ℕ) :
    (subsample_grid g M).map Grid.dtype = .ok DType.float64 ∨
      ∃ e, subsample_grid g M = .error e := by
  unfold subsample_grid
  dsimp only
  split_ifs <;>
    first
      | exact Or.inl rfl
      | exact Or.inr ⟨_, rfl⟩

/-- Reducing an integer coordinate that is already in range is the
identity under periodic wraparound. -/
lemma wrapIdx_eq_self (N t : ℕ) (h : t < N) : wrapIdx N t = t := by
  unfold wrapIdx
  rw [Int.emod_eq_of_lt (Int.natCast_nonneg t) (by exact_mod_cast h)]
  exact Int.toNat_natCast t

/-- A sliding sum with a `1×1×1` footprint is the cell itself whenever
the sampled coordinate is in range. -/
lemma slidingSum_one (N : ℕ) (d : ℕ → ℕ → ℕ → ℚ) (m1 m2 m3 : ℕ)
    (h1 : m1 < N) (h2 : m2 < N) (h3 : m3 < N) :
    slidingSum N 1 d m1 m2 m3 = d m1 m2 m3 := by
  unfold slidingSum
  norm_num [Finset.sum_range_one]
  rw [wrapIdx_eq_self N m1 h1, wrapIdx_eq_self N m2 h2, wrapIdx_eq_self N m3 h3]

/-- Claim C10: when the requested output gridsize equals the (positive)
input gridsize, `subsample_grid` passes validation and returns a
double-precision grid elementwise equal to the input: the conversion
factor is 1, the footprint is a single cell, and each sampled value is
divided by `1^3`. -/
theorem subsample_grid_equal_sizes_identity (g : Grid) (N : ℕ)
    (h1 : g.n1 = N) (h2 : g.n2 = N) (h3 : g.n3 = N) (hN : 0 < N)
    (i j l : ℕ) (hi : i < N) (hj : j < N) (hl : l < N) :
    (subsample_grid g N).map (fun out => out.data i j l) = .ok (g.data i j l) ∧
      (subsample_grid g N).map Grid.dtype = .ok DType.float64 := by
  unfold subsample_grid
  simp only [h1, h2, h3]
  simp [hN.ne', Nat.mod_self, Nat.div_self hN, Except.map, hi, hj, hl,
    slidingSum_one N g.data i j l hi hj hl]

/-- Concrete 2×2×2 int32 input used to instantiate C10. -/
def gEqual : Grid :=
  ⟨2, 2, 2, .int32, fun a b c => ((a + 2 * b + 3 * c : ℕ) : ℚ)⟩

/-- Witness for C10: the 2×2×2 int32 grid passed with output gridsize 2
comes back unchanged at cell `(1, 0, 1)` and promoted to float64. -/
theorem subsample_grid_equal_sizes_identity_witness :
    (subsample_grid gEqual 2).map (fun out => out.data 1 0 1) =
        .ok (gEqual.data 1 0 1) ∧
      (subsample_grid gEqual 2).map Grid.dtype = .ok DType.float64 :=
  subsample_grid_equal_sizes_identity gEqual 2 rfl rfl rfl (by decide)
    1 0 1 (by decide) (by decide) (by decide)

/-- A 6×6×6 content function that is zero except for a single 1 at
`(5, 0, 0)`, the far edge of the first axis. -/
def dOpp : ℕ → ℕ → ℕ → ℚ :=
  fun a b c => if a = 5 ∧ b = 0 ∧ c = 0 then 1 else 0

/-- Counterexample for C4: it is false that, whenever `N = M * k`, the
sliding-sum value sampled at a block-aligned coordinate depends only on
the cells of its own `k×k×k` block.  With `N = 6`, `M = 2`, `k = 3`, the
grid `dOpp` agrees with the zero grid on the whole block
`[0,3)×[0,3)×[0,3)` of the sampled cell `(0,0,0)`, yet the two sliding
sums sampled there differ: the footprint window along each axis is
`[-1, 1] mod 6`, so the cell `(5, 0, 0)` on the opposite edge is folded
in by the wraparound. -/
theorem slidingSum_wrap_folds_opposite_edge :
    ¬ (∀ (N M k : ℕ) (d1 d2 : ℕ → ℕ → ℕ → ℚ), 0 < k → N = M * k →
        (∀ a b c, a < k → b < k → c < k → d1 a b c = d2 a b c) →
        slidingSum N k d1 0 0 0 = slidingSum N k d2 0 0 0) := by
  intro hcl
  have hagree : ∀ a b c, a < 3 → b < 3 → c < 3 →
      dOpp a b c = (fun _ _ _ => (0 : ℚ)) a b c := by
    intro a b c ha hb hc
    simp only [dOpp]
    rw [if_neg]
    rintro ⟨h5, -⟩
    omega
  have h := hcl 6 2 3 dOpp (fun _ _ _ => 0) (by norm_num) (by norm_num) hagree
  have h1 : slidingSum 6 3 dOpp 0 0 0 = 1 := by
    simp only [slidingSum, Finset.sum_range_succ, Finset.sum_range_zero,
      wrapIdx, dOpp]
    norm_num
    decide
  have h2 : slidingSum 6 3 (fun _ _ _ => (0 : ℚ)) 0 0 0 = 0 := by
    simp only [slidingSum, Finset.sum_range_succ, Finset.sum_range_zero]
    norm_num
  rw [h1, h2] at h
  exact one_ne_zero h

/-- For conversion factors 1 and 2 the scipy footprint window along one
axis, sampled at a coordinate `m` with `m + k ≤ N`, covers exactly
`m, m+1, ..., m+k-1`: summing any `f` over the window equals summing it
over the block. -/
lemma window_sum_eq (N k m : ℕ) (hk : k = 1 ∨ k = 2) (hmk : m + k ≤ N)
    (f : ℕ → ℚ) :
    ∑ j ∈ Finset.range k, f (wrapIdx N ((m : ℤ) + ((k / 2 : ℕ) : ℤ) - (j : ℤ)))
      = ∑ j ∈ Finset.range k, f (m + j) := by
  have hk2 : k / 2 = k - 1 := by rcases hk with rfl | rfl <;> rfl
  have hidx : ∀ j, j < k →
      wrapIdx N ((m : ℤ) + ((k / 2 : ℕ) : ℤ) - (j : ℤ)) = m + (k - 1 - j) := by
    intro j hj
    have hj1 : j ≤ k - 1 := by omega
    have hcast : (m : ℤ) + ((k / 2 : ℕ) : ℤ) - (j : ℤ)
        = ((m + (k - 1 - j) : ℕ) : ℤ) := by
      rw [hk2]
      push_cast [Nat.cast_sub hj1]
      omega
    rw [hcast]
    exact wrapIdx_eq_self N (m + (k - 1 - j)) (by omega)
  calc ∑ j ∈ Finset.range k,
        f (wrapIdx N ((m : ℤ) + ((k / 2 : ℕ) : ℤ) - (j : ℤ)))
      = ∑ j ∈ Finset.range k, f (m + (k - 1 - j)) :=
        Finset.sum_congr rfl fun j hj => by
          rw [hidx j (Finset.mem_range.mp hj)]
    _ = ∑ j ∈ Finset.range k, f (m + j) :=
        Finset.sum_range_reflect (fun j => f (m + j)) k

/-- Claim C4, amended: for conversion factors `k = 1` and `k = 2` (the
only factors the repository reaches in its tests), the sliding sum
sampled at a block-aligned coordinate `(i*k, j*k, l*k)` equals the plain
sum of the `k×k×k` non-overlapping block with that minimum corner — in
particular it depends only on that block and no wraparound folding
occurs.  (For `k ≥ 3` this fails; see the counterexample.) -/
theorem slidingSum_blockAligned_eq_blockSum (N M k : ℕ)
    (d : ℕ → ℕ → ℕ → ℚ) (hk : k = 1 ∨ k = 2) (hN : N = M * k)
    (i j l : ℕ) (hi : i < M) (hj : j < M) (hl : l < M) :
    slidingSum N k d (i * k) (j * k) (l * k)
      = blockSum k d (i * k) (j * k) (l * k) := by
  have hb : ∀ t : ℕ, t < M → t * k + k ≤ N := by
    intro t ht
    calc t * k + k = (t + 1) * k := by ring
      _ ≤ M * k := Nat.mul_le_mul_right k (Nat.succ_le_of_lt ht)
      _ = N := hN.symm
  calc slidingSum N k d (i * k) (j * k) (l * k)
      = ∑ j1 ∈ Finset.range k,
          (fun a => ∑ j2 ∈ Finset.range k, ∑ j3 ∈ Finset.range k,
            d a (wrapIdx N (((j * k : ℕ) : ℤ) + ((k / 2 : ℕ) : ℤ) - (j2 : ℤ)))
              (wrapIdx N (((l * k : ℕ) : ℤ) + ((k / 2 : ℕ) : ℤ) - (j3 : ℤ))))
          (wrapIdx N (((i * k : ℕ) : ℤ) + ((k / 2 : ℕ) : ℤ) - (j1 : ℤ))) := rfl
    _ = ∑ j1 ∈ Finset.range k,
          (fun a => ∑ j2 ∈ Finset.range k, ∑ j3 ∈ Finset.range k,
            d a (wrapIdx N (((j * k : ℕ) : ℤ) + ((k / 2 : ℕ) : ℤ) - (j2 : ℤ)))
              (wrapIdx N (((l * k : ℕ) : ℤ) + ((k / 2 : ℕ) : ℤ) - (j3 : ℤ))))
          (i * k + j1) :=
        window_sum_eq N k (i * k) hk (hb i hi)
          (fun a => ∑ j2 ∈ Finset.range k, ∑ j3 ∈ Finset.range k,
            d a (wrapIdx N (((j * k : ℕ) : ℤ) + ((k / 2 : ℕ) : ℤ) - (j2 : ℤ)))
              (wrapIdx N (((l * k : ℕ) : ℤ) + ((k / 2 : ℕ) : ℤ) - (j3 : ℤ))))
    _ = ∑ j1 ∈ Finset.range k, ∑ j2 ∈ Finset.range k, ∑ j3 ∈ Finset.range k,
          d (i * k + j1) (j * k + j2) (l * k + j3) := by
        refine Finset.sum_congr rfl fun j1 _ => ?_
        calc ∑ j2 ∈ Finset.range k,
              (fun b => ∑ j3 ∈ Finset.range k,
                d (i * k + j1) b
                  (wrapIdx N (((l * k : ℕ) : ℤ) + ((k / 2 : ℕ) : ℤ) - (j3 : ℤ))))
              (wrapIdx N (((j * k : ℕ) : ℤ) + ((k / 2 : ℕ) : ℤ) - (j2 : ℤ)))
            = ∑ j2 ∈ Finset.range k,
              (fun b => ∑ j3 ∈ Finset.range k,
                d (i * k + j1) b
                  (wrapIdx N (((l * k : ℕ) : ℤ) + ((k / 2 : ℕ) : ℤ) - (j3 : ℤ))))
              (j * k + j2) :=
              window_sum_eq N k (j * k) hk (hb j hj)
                (fun b => ∑ j3 ∈ Finset.range k,
                  d (i * k + j1) b
                    (wrapIdx N (((l * k : ℕ) : ℤ) + ((k / 2 : ℕ) : ℤ) - (j3 : ℤ))))
          _ = ∑ j2 ∈ Finset.range k, ∑ j3 ∈ Finset.range k,
                d (i * k + j1) (j * k + j2) (l * k + j3) :=
              Finset.sum_congr rfl fun j2 _ =>
                window_sum_eq N k (l * k) hk (hb l hl)
                  (fun c => d (i * k + j1) (j * k + j2) c)
    _ = blockSum k d (i * k) (j * k) (l * k) := rfl

/-- Witness for the amended C4: with `N = 4`, `M = 2`, `k = 2`, the
sliding sum sampled at `(2, 2, 2)` equals the plain sum of the block with
minimum corner `(2, 2, 2)`. -/
theorem slidingSum_blockAligned_eq_blockSum_witness :
    slidingSum 4 2 (fun a b c => ((a + 2 * b + 4 * c : ℕ) : ℚ)) (1 * 2) (1 * 2) (1 * 2)
      = blockSum 2 (fun a b c => ((a + 2 * b + 4 * c : ℕ) : ℚ)) (1 * 2) (1 * 2) (1 * 2) :=
  slidingSum_blockAligned_eq_blockSum 4 2 2
    (fun a b c => ((a + 2 * b + 4 * c : ℕ) : ℚ)) (Or.inr rfl) rfl
    1 1 1 (by decide) (by decide) (by decide)

/-- A single-cell write to reference `r` leaves every other reference of
the store untouched. -/
lemma Store.writeCell_mem_ne (s : Store) (r i j l : ℕ) (v : ℚ) (q : ℕ)
    (h : q ≠ r) : (s.writeCell r i j l v).mem q = s.mem q := by
  simp [Store.writeCell, h]

/-- Allocating a fresh array leaves every live reference of the store
untouched. -/
lemma Store.alloc_mem_ne (s : Store) (g : Grid) (q : ℕ) (h : q ≠ s.next) :
    (s.alloc g).1.mem q = s.mem q := by
  simp [Store.alloc, h]

/-- The sampling loop of `subsample_grid` — a fold of single-cell writes
to the output array's reference — leaves every other reference of the
store untouched. -/
lemma foldl_writeCell_mem_ne (r r1 conv q : ℕ) (h : q ≠ r) :
    ∀ (L : List (ℕ × ℕ × ℕ)) (s : Store),
      (L.foldl
        (fun st t =>
          st.writeCell r t.1 t.2.1 t.2.2
            ((st.mem r1).data (t.1 * conv) (t.2.1 * conv) (t.2.2 * conv)
              / ((conv : ℚ)) ^ 3))
        s).mem q = s.mem q := by
  intro L
  induction L with
  | nil => intro s; rfl
  | cons t L ih =>
    intro s
    rw [List.foldl_cons, ih]
    exact Store.writeCell_mem_ne _ _ _ _ _ _ _ h

/-- Claim C9: `subsample_grid` never mutates its input.  In the
store-passing embedding `subsampleS`, whether the call raises or returns,
the input array (any live reference) is bit-for-bit the same grid —
shape, dtype and every cell — in the store after the call: the function
only allocates fresh arrays and writes cells of the freshly allocated
`final_new_density`. -/
theorem subsampleS_preserves_input (s : Store) (inRef M : ℕ)
    (h : inRef < s.next) :
    ((subsampleS s inRef M).1).mem inRef = s.mem inRef := by
  unfold subsampleS
  dsimp only
  split_ifs <;>
    first
      | rfl
      | (rw [foldl_writeCell_mem_ne, Store.alloc_mem_ne, Store.alloc_mem_ne] <;>
          simp [Store.alloc] <;> omega)

/-- Witness for C9: a store holding one 2×2×2 grid at reference 0; after
a successful `subsampleS` call with output gridsize 2, reference 0 still
holds the same grid. -/
theorem subsampleS_preserves_input_witness :
    ((subsampleS ⟨1, fun _ => gEqual⟩ 0 2).1).mem 0
      = (⟨1, fun _ => gEqual⟩ : Store).mem 0 :=
  subsampleS_preserves_input ⟨1, fun _ => gEqual⟩ 0 2 (by decide)
